import Mathlib

/-!
Shallow embedding of the gcloud plugin and gcloud function discovery of the
gloo repository (projects/gloo/pkg/plugins/gcloud and
projects/discovery/pkg/fds gcloud discovery), together with the parts of the
resource model they touch.  Go strings holding credential bytes are modelled
as byte lists (`GoStr`) so that `utf8.Valid` is meaningful; all other strings
are Lean `String`s.
-/

/-- Go byte string: a list of byte values. -/
abbrev GoStr := List Nat

/-- Is `b` a UTF-8 continuation byte (0x80..0xBF)? -/
def isCont (b : Nat) : Bool := 0x80 ≤ b && b ≤ 0xBF

/-- Embedding of Go `utf8.Valid`: the byte list is a well-formed UTF-8
encoding (no overlong forms, no surrogates, nothing above U+10FFFF),
following the accept ranges of Go's `unicode/utf8` package. -/
def utf8Valid : List Nat → Bool
  | [] => true
  | b :: rest =>
    if b ≤ 0x7F then utf8Valid rest
    else if 0xC2 ≤ b && b ≤ 0xDF then
      match rest with
      | b1 :: r => isCont b1 && utf8Valid r
      | [] => false
    else if b == 0xE0 then
      match rest with
      | b1 :: b2 :: r => (0xA0 ≤ b1 && b1 ≤ 0xBF) && isCont b2 && utf8Valid r
      | _ => false
    else if (0xE1 ≤ b && b ≤ 0xEC) || (0xEE ≤ b && b ≤ 0xEF) then
      match rest with
      | b1 :: b2 :: r => isCont b1 && isCont b2 && utf8Valid r
      | _ => false
    else if b == 0xED then
      match rest with
      | b1 :: b2 :: r => (0x80 ≤ b1 && b1 ≤ 0x9F) && isCont b2 && utf8Valid r
      | _ => false
    else if b == 0xF0 then
      match rest with
      | b1 :: b2 :: b3 :: r =>
          (0x90 ≤ b1 && b1 ≤ 0xBF) && isCont b2 && isCont b3 && utf8Valid r
      | _ => false
    else if 0xF1 ≤ b && b ≤ 0xF3 then
      match rest with
      | b1 :: b2 :: b3 :: r => isCont b1 && isCont b2 && isCont b3 && utf8Valid r
      | _ => false
    else if b == 0xF4 then
      match rest with
      | b1 :: b2 :: b3 :: r =>
          (0x80 ≤ b1 && b1 ≤ 0x8F) && isCont b2 && isCont b3 && utf8Valid r
      | _ => false
    else false

/-- `core.ResourceRef`: (namespace, name) pair used as a cross-resource key. -/
structure ResourceRef where
  ns : String
  name : String
deriving DecidableEq, Repr

/-- `core.Metadata` of a resource. -/
structure Metadata where
  name : String
  ns : String
deriving DecidableEq, Repr

/-- `Metadata.Ref()`: the (namespace, name) key of a resource. -/
def Metadata.ref (m : Metadata) : ResourceRef := ⟨m.ns, m.name⟩

/-- `gcloud.GfuncFunctionSpec`: one callable function recorded on an
upstream (proto fields LogicalName, GfuncFunctionName, Url). -/
structure GfuncFunctionSpec where
  logicalName : String
  gfuncFunctionName : String
  url : String
deriving DecidableEq, Repr

/-- `gcloud.UpstreamSpec`: the gcloud provider payload of an upstream. -/
structure GcloudUpstreamSpec where
  region : String
  projectId : String
  secretRef : ResourceRef
  gfuncFunctions : List GfuncFunctionSpec
deriving DecidableEq, Repr

/-- `kubernetes.UpstreamSpec` (as in the test file): a non-gcloud variant. -/
structure KubeUpstreamSpec where
  serviceName : String
  serviceNamespace : String
  servicePort : Nat
deriving DecidableEq, Repr

/-- `v1.UpstreamSpec.UpstreamType`: closed union of provider variants;
only the gcloud one is this plugin's. -/
inductive UpstreamType where
  | gcloud (s : GcloudUpstreamSpec)
  | kube (s : KubeUpstreamSpec)
  | otherProvider
deriving DecidableEq, Repr

/-- `v1.Upstream`. -/
structure Upstream where
  metadata : Metadata
  upstreamSpec : UpstreamType
deriving DecidableEq, Repr

/-- `gloov1.GcloudSecret`: access key and JSON key, as Go byte strings. -/
structure GcloudSecret where
  accessKey : GoStr
  jsonKey : GoStr
deriving DecidableEq, Repr

/-- `v1.Secret.Kind`: closed union of credential variants. -/
inductive SecretKind where
  | gcloud (s : GcloudSecret)
  | otherKind
deriving DecidableEq, Repr

/-- `v1.Secret`. -/
structure Secret where
  metadata : Metadata
  kind : SecretKind
deriving DecidableEq, Repr

/-- `v1.SecretList.Find(namespace, name)`: first secret whose metadata
matches the ref, if any (solo-kit returns a not-found error otherwise). -/
def secretsFind : List Secret → ResourceRef → Option Secret
  | [], _ => none
  | s :: rest, r => if s.metadata.ref = r then some s else secretsFind rest r

/-- The part of `params.Snapshot` the gcloud plugin reads: the secrets. -/
structure Snapshot where
  secrets : List Secret
deriving DecidableEq, Repr

theorem utf8Valid_examples : utf8Valid [0x68, 0x69] = true ∧ utf8Valid [0xFF] = false
    ∧ utf8Valid [0xC3, 0xA9] = true ∧ utf8Valid [0xC3] = false
    ∧ utf8Valid [0xED, 0xA0, 0x80] = false := by decide

/-! ## Envoy cluster model and the gcloud plugin -/

/-- The filter name constant `io.solo.gcloud_gfunc`. -/
def filterName : String := "io.solo.gcloud_gfunc"

/-- Envoy HTTP filter stages (`plugins.FilterStage` in gloo). -/
inductive FilterStage where
  | preInAuth
  | inAuth
  | postInAuth
  | outAuth
deriving DecidableEq, Repr

/-- The gcloud plugin's fixed stage, `plugins.OutAuth`. -/
def pluginStage : FilterStage := FilterStage.outAuth

/-- `getGfuncHostname`: `"<region>-<projectId>.cloudfunctions.net"`. -/
def getGfuncHostname (s : GcloudUpstreamSpec) : String :=
  s.region ++ "-" ++ s.projectId ++ ".cloudfunctions.net"

/-- `GfuncProtocolExtension`: the protocol options attached to the cluster. -/
structure GfuncProtocolExtension where
  host : String
  region : String
  accessKey : GoStr
  jsonKey : GoStr
deriving DecidableEq, Repr

/-- Envoy cluster discovery type; the plugin only ever sets LOGICAL_DNS. -/
inductive ClusterDiscoveryType where
  | logicalDNS
deriving DecidableEq, Repr

/-- Envoy DNS lookup family; the plugin only ever sets V4_ONLY. -/
inductive DnsLookupFamily where
  | v4Only
deriving DecidableEq, Repr

/-- The fields of the output `envoyapi.Cluster` that the plugin writes. -/
structure Cluster where
  discoveryType : Option ClusterDiscoveryType := none
  dnsLookupFamily : Option DnsLookupFamily := none
  loadAssignment : Option (String × Nat) := none
  tlsSni : Option String := none
  extensionProtocolOptions : List (String × GfuncProtocolExtension) := []
deriving DecidableEq, Repr

/-- Modelled from the spec: `pluginutils.SetExtenstionProtocolOptions`
(gloo pluginutils package, not under src/) attaches the provider's
protocol-extension options to the cluster under the filter name. -/
def setExtensionProtocolOptions (c : Cluster) (nm : String)
    (lpe : GfuncProtocolExtension) : Cluster :=
  { c with extensionProtocolOptions := (nm, lpe) :: c.extensionProtocolOptions }

/-- Errors the plugin can return, one constructor per `errors.*` site. -/
inductive PErr where
  | secretNotFound (ref : ResourceRef)
  | notGcloudSecret (ref : ResourceRef)
  | validation (msgs : List String)
  | notGcloudUpstream (ref : ResourceRef)
  | unknownFunction (name : String)
deriving DecidableEq, Repr

/-- The gcloud plugin's mutable state: the per-pass map
`recordedUpstreams` (association list with the lookup semantics of a Go
map: first binding for a key wins, insertion prepends) and the shared
`transformsAdded` flag. -/
structure PluginState where
  recordedUpstreams : List (ResourceRef × GcloudUpstreamSpec)
  transformsAdded : Bool
deriving DecidableEq, Repr

/-- Go-map-style lookup in `recordedUpstreams`. -/
def lookupRec : List (ResourceRef × GcloudUpstreamSpec) → ResourceRef →
    Option GcloudUpstreamSpec
  | [], _ => none
  | (k, v) :: rest, r => if k = r then some v else lookupRec rest r

/-- `plugin.Init`: resets `recordedUpstreams` to an empty map; the shared
`transformsAdded` pointer is not touched. -/
def pluginInit (p : PluginState) : PluginState :=
  { p with recordedUpstreams := [] }

/-- `plugin.ProcessUpstream`: returns the state after the call, the output
cluster, and the error (if any).  Non-gcloud upstreams are a no-op; a
gcloud upstream is recorded first, then the cluster is configured, then
the secret is looked up and validated (both key fields, aggregated). -/
def processUpstream (p : PluginState) (snap : Snapshot) (inU : Upstream)
    (out : Cluster) : PluginState × Cluster × Option PErr :=
  match inU.upstreamSpec with
  | UpstreamType.kube _ => (p, out, none)
  | UpstreamType.otherProvider => (p, out, none)
  | UpstreamType.gcloud g =>
    -- even if it failed, route should still be valid
    let p1 : PluginState :=
      { p with recordedUpstreams := (inU.metadata.ref, g) :: p.recordedUpstreams }
    let host := getGfuncHostname g
    let out1 : Cluster :=
      { out with
        discoveryType := some ClusterDiscoveryType.logicalDNS
        dnsLookupFamily := some DnsLookupFamily.v4Only
        loadAssignment := some (host, 443)
        tlsSni := some host }
    match secretsFind snap.secrets g.secretRef with
    | none => (p1, out1, some (PErr.secretNotFound g.secretRef))
    | some s =>
      match s.kind with
      | SecretKind.otherKind => (p1, out1, some (PErr.notGcloudSecret s.metadata.ref))
      | SecretKind.gcloud gs =>
        let secretErrs : List String :=
          (if gs.accessKey = [] ∨ utf8Valid gs.accessKey = false
            then ["access_key is not a valid string"] else []) ++
          (if gs.jsonKey = [] ∨ utf8Valid gs.jsonKey = false
            then ["json_key is not a valid string"] else [])
        if secretErrs ≠ [] then (p1, out1, some (PErr.validation secretErrs))
        else
          let lpe : GfuncProtocolExtension :=
            { host := host, region := g.region
              accessKey := gs.accessKey, jsonKey := gs.jsonKey }
          (p1, setExtensionProtocolOptions out1 filterName lpe, none)

/-! ## Routes -/

/-- `gcloud.DestinationSpec`: logical function name plus the
response-transformation toggle. -/
structure GcloudDestinationSpec where
  logicalName : String
  responseTransformation : Bool
deriving DecidableEq, Repr

/-- `v1.DestinationSpec.DestinationType`: closed union of variants. -/
inductive DestinationType where
  | gcloud (s : GcloudDestinationSpec)
  | otherDestination
deriving DecidableEq, Repr

/-- `v1.Destination`: upstream ref plus optional destination spec
(either may be absent, as the plugin's nil checks allow). -/
structure Destination where
  upstream : Option ResourceRef
  destinationSpec : Option DestinationType
deriving DecidableEq, Repr

/-- A route, carrying the destination the per-filter closures inspect. -/
structure Route where
  destination : Destination
deriving DecidableEq, Repr

/-- `GfuncPerRoute`: the per-route gfunc filter config. -/
structure GfuncPerRoute where
  name : String
  url : String
deriving DecidableEq, Repr

/-- The response transformation the plugin builds (body template
`{{body}}` and content-type header, flattened from the nested envoy
message). -/
structure RouteTransformations where
  responseBodyTemplate : String
  responseContentType : String
deriving DecidableEq, Repr

/-- The per-filter configs `ProcessRoute` attaches to the output route. -/
structure RoutePatch where
  gfuncConfig : Option GfuncPerRoute := none
  transformConfig : Option RouteTransformations := none
deriving DecidableEq, Repr

/-- The first `MarkPerFilterConfig` closure of `plugin.ProcessRoute`:
resolve the destination's logical function name against the recorded
upstream's function list (first exact match on `LogicalName`). -/
def gfuncPerFilterFn (p : PluginState) (spec : Destination) :
    Except PErr (Option GfuncPerRoute) :=
  match spec.destinationSpec, spec.upstream with
  | none, _ => Except.ok none
  | some _, none => Except.ok none
  | some dt, some up =>
    match dt with
    | DestinationType.otherDestination => Except.ok none
    | DestinationType.gcloud g =>
      match lookupRec p.recordedUpstreams up with
      | none => Except.error (PErr.notGcloudUpstream up)
      | some gfuncSpec =>
        match gfuncSpec.gfuncFunctions.find?
            (fun f => f.logicalName == g.logicalName) with
        | some f =>
            Except.ok (some { name := f.gfuncFunctionName, url := f.url })
        | none => Except.error (PErr.unknownFunction g.logicalName)

/-- The second `MarkPerFilterConfig` closure of `plugin.ProcessRoute`:
when the gcloud destination asks for response transformation, emit the
transformation config and report that a transform was added (the Go code
sets the shared `transformsAdded` flag).  This closure never errors. -/
def transformPerFilterFn (spec : Destination) :
    Option RouteTransformations × Bool :=
  match spec.destinationSpec with
  | none => (none, false)
  | some dt =>
    match dt with
    | DestinationType.otherDestination => (none, false)
    | DestinationType.gcloud g =>
      if g.responseTransformation then
        (some { responseBodyTemplate := "\x7b\x7bbody\x7d\x7d"
                responseContentType := "text/html" }, true)
      else (none, false)

/-- `plugin.ProcessRoute`.  Modelled from the spec:
`pluginutils.MarkPerFilterConfig` (gloo pluginutils, not under src/)
applies the per-destination closure to the route's destination and
attaches the returned message under the filter's name, aborting on
error; here it is inlined for a single-destination route, composing the
two closures exactly as the Go method does (the second runs only when
the first succeeded). -/
def processRoute (p : PluginState) (inR : Route) :
    PluginState × Except PErr RoutePatch :=
  match gfuncPerFilterFn p inR.destination with
  | Except.error e => (p, Except.error e)
  | Except.ok gCfg =>
    match transformPerFilterFn inR.destination with
    | (tCfg, added) =>
      ({ p with transformsAdded := if added then true else p.transformsAdded },
        Except.ok { gfuncConfig := gCfg, transformConfig := tCfg })

/-- `plugins.StagedHttpFilter`. -/
structure StagedHttpFilter where
  name : String
  stage : FilterStage
deriving DecidableEq, Repr

/-- `plugin.HttpFilters`: no recorded upstreams means no filter; otherwise
exactly the gfunc filter at its fixed stage.  Never an error. -/
def httpFilters (p : PluginState) : List StagedHttpFilter × Option PErr :=
  if p.recordedUpstreams.length = 0 then ([], none)
  else ([{ name := filterName, stage := pluginStage }], none)

/-! ## One translation pass over the plugin's hooks -/

/-- One plugin hook invocation within a pass. -/
inductive HookCall where
  | upstreamCall (u : Upstream) (out : Cluster)
  | routeCall (r : Route)
  | filtersCall
deriving DecidableEq, Repr

deriving instance DecidableEq for Except

/-- The observable output of one hook invocation. -/
inductive HookResult where
  | upstreamRes (c : Cluster) (e : Option PErr)
  | routeRes (r : Except PErr RoutePatch)
  | filtersRes (fs : List StagedHttpFilter) (e : Option PErr)
deriving DecidableEq, Repr

/-- Run one hook call against the plugin's state. -/
def runHook (snap : Snapshot) (p : PluginState) :
    HookCall → PluginState × HookResult
  | HookCall.upstreamCall u out =>
    ((processUpstream p snap u out).1,
      HookResult.upstreamRes (processUpstream p snap u out).2.1
        (processUpstream p snap u out).2.2)
  | HookCall.routeCall r =>
    ((processRoute p r).1, HookResult.routeRes (processRoute p r).2)
  | HookCall.filtersCall =>
    (p, HookResult.filtersRes (httpFilters p).1 (httpFilters p).2)

/-- Run a sequence of hook calls, threading the plugin's state. -/
def runHooks (snap : Snapshot) (p : PluginState) :
    List HookCall → PluginState × List HookResult
  | [] => (p, [])
  | c :: rest =>
    ((runHooks snap (runHook snap p c).1 rest).1,
      (runHook snap p c).2 :: (runHooks snap (runHook snap p c).1 rest).2)

/-- A full pass: `Init` followed by the given hook calls. -/
def runPass (snap : Snapshot) (p : PluginState) (calls : List HookCall) :
    PluginState × List HookResult :=
  runHooks snap (pluginInit p) calls

/-! ## gcloud function discovery -/

/-- `cloudfunctions.HttpsTrigger`. -/
structure HttpsTrigger where
  url : String
deriving DecidableEq, Repr

/-- `cloudfunctions.CloudFunction`: the fields discovery reads. -/
structure CloudFunction where
  name : String
  status : String
  httpsTrigger : Option HttpsTrigger
deriving DecidableEq, Repr

/-- v1beta2 ready status literal. -/
def statusReady : String := "READY"

/-- v1 ready status literal. -/
def statusActive : String := "ACTIVE"

/-- The page-collection loop of `DetectFunctionsOnce`: keep a provider
function iff its status is READY or ACTIVE and it has an HTTPS trigger. -/
def collectReadyHttps : List CloudFunction → List CloudFunction
  | [] => []
  | r :: rest =>
    if ((r.status == statusReady) || (r.status == statusActive))
        && r.httpsTrigger.isSome
    then r :: collectReadyHttps rest
    else collectReadyHttps rest

/-- `convertGfuncsToFunctionSpec`: build the stored function specs.  Only
`GfuncFunctionName` and `Url` are populated; the Go composite literal
leaves `LogicalName` at its zero value `""`. -/
def convertGfuncsToFunctionSpec (results : List CloudFunction) :
    List GfuncFunctionSpec :=
  results.map (fun gFunc =>
    { logicalName := ""
      gfuncFunctionName := gFunc.name
      url := match gFunc.httpsTrigger with
             | some t => t.url
             | none => "" })

/-- Discovery-side errors, one constructor per `errors.*` site of
`DetectFunctionsOnce`. -/
inductive DErr where
  | notGfuncUpstream
  | secretsNotFound (ref : ResourceRef)
  | notGcloudSecret
  | invalidKey (field : String)
deriving DecidableEq, Repr

/-- `GcloudGfuncFunctionDiscovery.DetectFunctionsOnce`, with the external
Google API interaction abstracted: `response` stands for the functions the
paginated list call yields.  Credential checks here tolerate an empty key
but reject invalid UTF-8, exactly as in the Go source. -/
def detectFunctionsOnce (u : Upstream) (secrets : List Secret)
    (response : List CloudFunction) : Except DErr (List GfuncFunctionSpec) :=
  match u.upstreamSpec with
  | UpstreamType.kube _ => Except.error DErr.notGfuncUpstream
  | UpstreamType.otherProvider => Except.error DErr.notGfuncUpstream
  | UpstreamType.gcloud gfuncSpec =>
    match secretsFind secrets gfuncSpec.secretRef with
    | none => Except.error (DErr.secretsNotFound gfuncSpec.secretRef)
    | some s =>
      match s.kind with
      | SecretKind.otherKind => Except.error DErr.notGcloudSecret
      | SecretKind.gcloud gs =>
        if gs.accessKey ≠ [] ∧ utf8Valid gs.accessKey = false then
          Except.error (DErr.invalidKey "access_key")
        else if gs.jsonKey ≠ [] ∧ utf8Valid gs.jsonKey = false then
          Except.error (DErr.invalidKey "json_key")
        else
          Except.ok (convertGfuncsToFunctionSpec (collectReadyHttps response))

/-- Lexicographic strict order on character lists by code point; for valid
UTF-8 this agrees with Go's byte-wise `<` on strings. -/
def charListLt : List Char → List Char → Bool
  | [], [] => false
  | [], _ :: _ => true
  | _ :: _, [] => false
  | a :: as, b :: bs =>
    if a.val.toNat < b.val.toNat then true
    else if b.val.toNat < a.val.toNat then false
    else charListLt as bs

/-- Go's `<` on strings (byte-wise lexicographic). -/
def strLt (a b : String) : Bool := charListLt a.data b.data

/-- The comparison of `sort.Slice` in `DetectFunctions`: strictly less on
`LogicalName`. -/
def lessByLogicalName (a b : GfuncFunctionSpec) : Bool :=
  strLt a.logicalName b.logicalName

/-- Insert into a list already sorted by `lessByLogicalName`, keeping
equal keys in order (Go's sort on a small slice is an insertion sort and
does not exchange equal elements). -/
def insertByLogicalName (f : GfuncFunctionSpec) :
    List GfuncFunctionSpec → List GfuncFunctionSpec
  | [] => [f]
  | g :: rest =>
    if lessByLogicalName g f then g :: insertByLogicalName f rest
    else f :: g :: rest

/-- The `sort.Slice` call of `DetectFunctions`: sort ascending by
`LogicalName`. -/
def sortByLogicalName : List GfuncFunctionSpec → List GfuncFunctionSpec
  | [] => []
  | f :: rest => insertByLogicalName f (sortByLogicalName rest)

/-- One successful body of the discovery loop up to the mutation callback:
detect once, then sort; the resulting list is what `updatecb` writes. -/
def detectIteration (u : Upstream) (secrets : List Secret)
    (response : List CloudFunction) : Except DErr (List GfuncFunctionSpec) :=
  match detectFunctionsOnce u secrets response with
  | Except.error e => Except.error e
  | Except.ok newfunctions => Except.ok (sortByLogicalName newfunctions)

/-- The mutator closure passed to `updatecb`: re-check the live upstream
and replace its gcloud function list. -/
def applyUpdate (newfunctions : List GfuncFunctionSpec) :
    Option Upstream → Except String Upstream
  | none => Except.error "nil upstream"
  | some out =>
    match out.upstreamSpec with
    | UpstreamType.kube _ => Except.error "not gcloud upstream"
    | UpstreamType.otherProvider => Except.error "not gcloud upstream"
    | UpstreamType.gcloud gspec =>
      Except.ok { out with upstreamSpec :=
        UpstreamType.gcloud { gspec with gfuncFunctions := newfunctions } }

/-! ## The discovery loop's control flow -/

/-- Context errors, as distinguishable from provider errors. -/
inductive CtxErr where
  | canceled
  | deadlineExceeded
deriving DecidableEq, Repr

/-- Errors observable inside the discovery loop. -/
inductive GoErr where
  | ctx (c : CtxErr)
  | provider (msg : String)
  | updateFailed (msg : String)
deriving DecidableEq, Repr

/-- The external observations of one iteration of `DetectFunctions`:
what the `Backoff` combinator returned, what `ctx.Err()` reads right
after it, and whether `contextutils.Sleep` was interrupted (it returns
the context's error exactly when the context is cancelled during the
poll-interval wait). -/
structure IterEnv where
  backoffErr : Option GoErr
  ctxErrAfter : Option CtxErr
  sleepErr : Option CtxErr
deriving DecidableEq, Repr

/-- The control flow of the `for` loop of `DetectFunctions` over a finite
prefix of iteration observations: `none` means the loop is still running
after consuming the whole prefix; `some e` means it returned `e`. -/
def detectFunctionsLoop : List IterEnv → Option GoErr
  | [] => none
  | env :: rest =>
    match env.backoffErr with
    | some _ =>
      match env.ctxErrAfter with
      | some ce => some (GoErr.ctx ce)
      | none =>
        -- ignore other errors as the loop continues forever
        match env.sleepErr with
        | some se => some (GoErr.ctx se)
        | none => detectFunctionsLoop rest
    | none =>
      match env.sleepErr with
      | some se => some (GoErr.ctx se)
      | none => detectFunctionsLoop rest

/-! ## Theorems -/

/-- `ProcessUpstream` on a gcloud upstream records the spec first, so the
state after the call always carries the binding, whatever the error. -/
theorem processUpstream_state (p : PluginState) (snap : Snapshot)
    (u : Upstream) (g : GcloudUpstreamSpec) (out : Cluster)
    (hu : u.upstreamSpec = UpstreamType.gcloud g) :
    (processUpstream p snap u out).1 =
      { p with recordedUpstreams := (u.metadata.ref, g) :: p.recordedUpstreams } := by
  cases hfind : secretsFind snap.secrets g.secretRef with
  | none => simp [processUpstream, hu, hfind]
  | some s =>
    cases hkind : s.kind with
    | otherKind => simp [processUpstream, hu, hfind, hkind]
    | gcloud gs =>
      simp only [processUpstream, hu, hfind, hkind]
      repeat' split
      all_goals rfl

/-- C2: a Backend whose ProviderSpec variant is not the gcloud one is a
no-op for `ProcessUpstream`: no error, cluster and plugin state unchanged. -/
theorem gcloud_C2 (p : PluginState) (snap : Snapshot) (u : Upstream)
    (out : Cluster) (h : ∀ g, u.upstreamSpec ≠ UpstreamType.gcloud g) :
    processUpstream p snap u out = (p, out, none) := by
  cases hu : u.upstreamSpec with
  | gcloud g => exact absurd hu (h g)
  | kube s => simp [processUpstream, hu]
  | otherProvider => simp [processUpstream, hu]

theorem gcloud_C2_witness :
    processUpstream ⟨[], false⟩ ⟨[]⟩
        ⟨⟨"svc-upstream", "gloo-system"⟩,
          UpstreamType.kube ⟨"svc", "default", 8080⟩⟩ {} =
      (⟨[], false⟩, {}, none) :=
  gcloud_C2 _ _ _ _ (fun _ h => nomatch h)

/-- C8: `Init` resets the per-pass recorded-upstreams map to empty,
whatever was recorded before. -/
theorem gcloud_C8 (p : PluginState) : (pluginInit p).recordedUpstreams = [] :=
  rfl

/-- C7: `HttpFilters` never errors, returns at most one filter, returns no
filter exactly when no gcloud Backend was recorded this pass, and returns
the gfunc filter at its fixed stage when at least one was. -/
theorem gcloud_C7 (p : PluginState) :
    (httpFilters p).2 = none ∧
    (httpFilters p).1.length ≤ 1 ∧
    ((httpFilters p).1 = [] ↔ p.recordedUpstreams = []) ∧
    (p.recordedUpstreams ≠ [] →
      (httpFilters p).1 = [{ name := filterName, stage := pluginStage }]) := by
  cases hr : p.recordedUpstreams with
  | nil => simp [httpFilters, hr]
  | cons a l => simp [httpFilters, hr]

theorem gcloud_C7_witness :
    (httpFilters ⟨[(⟨"gloo-system", "up1"⟩,
        ⟨"us-east1", "proj", ⟨"gloo-system", "sec"⟩, []⟩)], false⟩).1 =
      [{ name := filterName, stage := pluginStage }] :=
  (gcloud_C7 _).2.2.2 (by decide)

/-- C3: when the resolved gcloud secret's access key is empty or invalid
UTF-8 and its JSON key is empty or invalid UTF-8, `ProcessUpstream`
returns one aggregated error naming both field problems. -/
theorem gcloud_C3 (p : PluginState) (snap : Snapshot) (u : Upstream)
    (g : GcloudUpstreamSpec) (s : Secret) (gs : GcloudSecret) (out : Cluster)
    (hu : u.upstreamSpec = UpstreamType.gcloud g)
    (hfind : secretsFind snap.secrets g.secretRef = some s)
    (hkind : s.kind = SecretKind.gcloud gs)
    (hak : gs.accessKey = [] ∨ utf8Valid gs.accessKey = false)
    (hjk : gs.jsonKey = [] ∨ utf8Valid gs.jsonKey = false) :
    (processUpstream p snap u out).2.2 =
      some (PErr.validation
        ["access_key is not a valid string", "json_key is not a valid string"]) := by
  simp only [processUpstream, hu, hfind, hkind]
  rw [if_pos hak, if_pos hjk]
  simp

theorem gcloud_C3_witness :
    (processUpstream ⟨[], false⟩
        ⟨[⟨⟨"gcloud-secret", "gloo-system"⟩,
            SecretKind.gcloud ⟨[], [0xFF]⟩⟩]⟩
        ⟨⟨"up", "gloo-system"⟩,
          UpstreamType.gcloud
            ⟨"us-east1", "proj", ⟨"gloo-system", "gcloud-secret"⟩, []⟩⟩
        {}).2.2 =
      some (PErr.validation
        ["access_key is not a valid string", "json_key is not a valid string"]) :=
  gcloud_C3 ⟨[], false⟩
    ⟨[⟨⟨"gcloud-secret", "gloo-system"⟩, SecretKind.gcloud ⟨[], [0xFF]⟩⟩]⟩
    ⟨⟨"up", "gloo-system"⟩,
      UpstreamType.gcloud
        ⟨"us-east1", "proj", ⟨"gloo-system", "gcloud-secret"⟩, []⟩⟩
    ⟨"us-east1", "proj", ⟨"gloo-system", "gcloud-secret"⟩, []⟩
    ⟨⟨"gcloud-secret", "gloo-system"⟩, SecretKind.gcloud ⟨[], [0xFF]⟩⟩
    ⟨[], [0xFF]⟩ {} rfl (by decide) rfl (by decide) (by decide)

/-- When the destination is a gcloud one, its backend is recorded, and the
logical name resolves (first exact match), `ProcessRoute` succeeds with
the matched function's name and URL in the gfunc per-route config. -/
theorem processRoute_found (p : PluginState) (r : ResourceRef)
    (g : GcloudUpstreamSpec) (ln : String) (rt : Bool) (f : GfuncFunctionSpec)
    (hrec : lookupRec p.recordedUpstreams r = some g)
    (hf : g.gfuncFunctions.find? (fun x => x.logicalName == ln) = some f) :
    (processRoute p ⟨⟨some r, some (DestinationType.gcloud ⟨ln, rt⟩)⟩⟩).2 =
      Except.ok
        { gfuncConfig := some ⟨f.gfuncFunctionName, f.url⟩
          transformConfig :=
            (transformPerFilterFn
              ⟨some r, some (DestinationType.gcloud ⟨ln, rt⟩)⟩).1 } := by
  simp [processRoute, gfuncPerFilterFn, hrec, hf]

/-- When the destination is a gcloud one, its backend is recorded, but no
recorded function carries the logical name, `ProcessRoute` fails with the
`unknown function` error naming that logical name. -/
theorem processRoute_not_found (p : PluginState) (r : ResourceRef)
    (g : GcloudUpstreamSpec) (ln : String) (rt : Bool)
    (hrec : lookupRec p.recordedUpstreams r = some g)
    (hnone : ∀ f ∈ g.gfuncFunctions, f.logicalName ≠ ln) :
    (processRoute p ⟨⟨some r, some (DestinationType.gcloud ⟨ln, rt⟩)⟩⟩).2 =
      Except.error (PErr.unknownFunction ln) := by
  have hf : g.gfuncFunctions.find? (fun x => x.logicalName == ln) = none := by
    rw [List.find?_eq_none]
    intro x hx
    simpa using hnone x hx
  simp [processRoute, gfuncPerFilterFn, hrec, hf]

/-- C1: for a gcloud destination whose backend was recorded, `ProcessRoute`
resolves the logical function name against the recorded function list by
exact equality: no match yields the error naming the unresolved function,
and a match yields a route patch with that function's name and URL. -/
theorem gcloud_C1 (p : PluginState) (r : ResourceRef)
    (g : GcloudUpstreamSpec) (ln : String) (rt : Bool)
    (hrec : lookupRec p.recordedUpstreams r = some g) :
    ((∀ f ∈ g.gfuncFunctions, f.logicalName ≠ ln) →
      (processRoute p ⟨⟨some r, some (DestinationType.gcloud ⟨ln, rt⟩)⟩⟩).2 =
        Except.error (PErr.unknownFunction ln)) ∧
    (∀ f, g.gfuncFunctions.find? (fun x => x.logicalName == ln) = some f →
      ∃ patch,
        (processRoute p ⟨⟨some r, some (DestinationType.gcloud ⟨ln, rt⟩)⟩⟩).2 =
          Except.ok patch ∧
        patch.gfuncConfig = some ⟨f.gfuncFunctionName, f.url⟩) := by
  constructor
  · intro hnone
    exact processRoute_not_found p r g ln rt hrec hnone
  · intro f hf
    exact ⟨_, processRoute_found p r g ln rt f hrec hf, rfl⟩

theorem gcloud_C1_witness :
    (processRoute
        ⟨[(⟨"gloo-system", "up"⟩,
            ⟨"us-east1", "proj", ⟨"gloo-system", "sec"⟩,
              [⟨"f1", "gf1", "https://f1"⟩, ⟨"f3", "gf3", "https://f3"⟩]⟩)],
          false⟩
        ⟨⟨some ⟨"gloo-system", "up"⟩,
          some (DestinationType.gcloud ⟨"f2", false⟩)⟩⟩).2 =
      Except.error (PErr.unknownFunction "f2") :=
  (gcloud_C1
    ⟨[(⟨"gloo-system", "up"⟩,
        ⟨"us-east1", "proj", ⟨"gloo-system", "sec"⟩,
          [⟨"f1", "gf1", "https://f1"⟩, ⟨"f3", "gf3", "https://f3"⟩]⟩)],
      false⟩
    ⟨"gloo-system", "up"⟩
    ⟨"us-east1", "proj", ⟨"gloo-system", "sec"⟩,
      [⟨"f1", "gf1", "https://f1"⟩, ⟨"f3", "gf3", "https://f3"⟩]⟩
    "f2" false (by decide)).1 (by decide)

/-- C10: `ProcessUpstream` records the gcloud spec before secret lookup
and validation, so whatever the snapshot (and hence whatever error the
call returns), a later `ProcessRoute` in the same pass resolving a
present logical name on that backend still succeeds. -/
theorem gcloud_C10 (p : PluginState) (snap : Snapshot) (u : Upstream)
    (g : GcloudUpstreamSpec) (out : Cluster) (ln : String) (rt : Bool)
    (hu : u.upstreamSpec = UpstreamType.gcloud g) :
    lookupRec (processUpstream p snap u out).1.recordedUpstreams
        u.metadata.ref = some g ∧
    (∀ f, g.gfuncFunctions.find? (fun x => x.logicalName == ln) = some f →
      ∃ patch,
        (processRoute (processUpstream p snap u out).1
          ⟨⟨some u.metadata.ref,
            some (DestinationType.gcloud ⟨ln, rt⟩)⟩⟩).2 =
          Except.ok patch ∧
        patch.gfuncConfig = some ⟨f.gfuncFunctionName, f.url⟩) := by
  have hrec : lookupRec (processUpstream p snap u out).1.recordedUpstreams
      u.metadata.ref = some g := by
    rw [processUpstream_state p snap u g out hu]
    simp [lookupRec]
  refine ⟨hrec, ?_⟩
  intro f hf
  exact ⟨_, processRoute_found _ _ _ ln rt f hrec hf, rfl⟩

theorem gcloud_C10_witness :
    lookupRec
        (processUpstream ⟨[], false⟩ ⟨[]⟩
          ⟨⟨"up", "gloo-system"⟩,
            UpstreamType.gcloud
              ⟨"us-east1", "proj", ⟨"gloo-system", "missing"⟩,
                [⟨"f1", "gf1", "https://f1"⟩]⟩⟩ {}).1.recordedUpstreams
        (Metadata.ref ⟨"up", "gloo-system"⟩) =
      some ⟨"us-east1", "proj", ⟨"gloo-system", "missing"⟩,
        [⟨"f1", "gf1", "https://f1"⟩]⟩ :=
  (gcloud_C10 ⟨[], false⟩ ⟨[]⟩
    ⟨⟨"up", "gloo-system"⟩,
      UpstreamType.gcloud
        ⟨"us-east1", "proj", ⟨"gloo-system", "missing"⟩,
          [⟨"f1", "gf1", "https://f1"⟩]⟩⟩
    ⟨"us-east1", "proj", ⟨"gloo-system", "missing"⟩,
      [⟨"f1", "gf1", "https://f1"⟩]⟩
    {} "f1" false rfl).1

/-- The page-collection loop is the filter by readiness and HTTPS trigger. -/
theorem mem_collectReadyHttps (cf : CloudFunction) :
    ∀ l : List CloudFunction,
      cf ∈ collectReadyHttps l ↔
        cf ∈ l ∧ ((cf.status = "READY" ∨ cf.status = "ACTIVE") ∧
          cf.httpsTrigger ≠ none) := by
  intro l
  induction l with
  | nil => simp [collectReadyHttps]
  | cons r rest ih =>
    by_cases hr : (((r.status == statusReady) || (r.status == statusActive))
        && r.httpsTrigger.isSome) = true
    · rw [collectReadyHttps, if_pos hr]
      constructor
      · intro hm
        rcases List.mem_cons.mp hm with h | h
        · subst h
          refine ⟨List.mem_cons_self _ _, ?_⟩
          simp only [Bool.and_eq_true, Bool.or_eq_true, beq_iff_eq,
            statusReady, statusActive, Option.isSome_iff_ne_none] at hr
          exact hr
        · have := ih.mp h
          exact ⟨List.mem_cons_of_mem _ this.1, this.2⟩
      · intro ⟨hm, hcond⟩
        rcases List.mem_cons.mp hm with h | h
        · subst h
          exact List.mem_cons_self _ _
        · exact List.mem_cons_of_mem _ (ih.mpr ⟨h, hcond⟩)
    · rw [collectReadyHttps, if_neg hr]
      constructor
      · intro hm
        have := ih.mp hm
        exact ⟨List.mem_cons_of_mem _ this.1, this.2⟩
      · intro ⟨hm, hcond⟩
        rcases List.mem_cons.mp hm with h | h
        · exfalso
          subst h
          apply hr
          simp only [Bool.and_eq_true, Bool.or_eq_true, beq_iff_eq,
            statusReady, statusActive, Option.isSome_iff_ne_none]
          exact hcond
        · exact ih.mpr ⟨h, hcond⟩

/-- Whenever `DetectFunctionsOnce` succeeds, its result is exactly the
conversion of the retained provider functions. -/
theorem detectFunctionsOnce_ok (u : Upstream) (secrets : List Secret)
    (response : List CloudFunction) (funcs : List GfuncFunctionSpec)
    (h : detectFunctionsOnce u secrets response = Except.ok funcs) :
    funcs = convertGfuncsToFunctionSpec (collectReadyHttps response) := by
  cases hu : u.upstreamSpec with
  | kube s => simp only [detectFunctionsOnce, hu] at h; exact nomatch h
  | otherProvider => simp only [detectFunctionsOnce, hu] at h; exact nomatch h
  | gcloud g =>
    simp only [detectFunctionsOnce, hu] at h
    cases hfind : secretsFind secrets g.secretRef with
    | none => simp only [hfind] at h; exact nomatch h
    | some s =>
      simp only [hfind] at h
      cases hkind : s.kind with
      | otherKind => simp only [hkind] at h; exact nomatch h
      | gcloud gs =>
        simp only [hkind] at h
        by_cases hak : gs.accessKey ≠ [] ∧ utf8Valid gs.accessKey = false
        · rw [if_pos hak] at h; exact nomatch h
        · rw [if_neg hak] at h
          by_cases hjk : gs.jsonKey ≠ [] ∧ utf8Valid gs.jsonKey = false
          · rw [if_pos hjk] at h; exact nomatch h
          · rw [if_neg hjk] at h
            exact (Except.ok.injEq _ _ ).mp h.symm

/-- C5: `DetectFunctionsOnce` keeps a provider function in its result iff
its status is `"READY"` or `"ACTIVE"` and it has an HTTPS trigger; every
other provider function is dropped, and the successful result is exactly
the conversion of the retained ones. -/
theorem gcloud_C5 (u : Upstream) (secrets : List Secret)
    (response : List CloudFunction) (funcs : List GfuncFunctionSpec)
    (h : detectFunctionsOnce u secrets response = Except.ok funcs) :
    funcs = convertGfuncsToFunctionSpec (collectReadyHttps response) ∧
    ∀ cf, cf ∈ collectReadyHttps response ↔
      cf ∈ response ∧ ((cf.status = "READY" ∨ cf.status = "ACTIVE") ∧
        cf.httpsTrigger ≠ none) :=
  ⟨detectFunctionsOnce_ok u secrets response funcs h,
    fun cf => mem_collectReadyHttps cf response⟩

theorem gcloud_C5_witness :
    [⟨"", "fn-ready", "https://fn-ready"⟩] =
      convertGfuncsToFunctionSpec (collectReadyHttps
        [⟨"fn-ready", "READY", some ⟨"https://fn-ready"⟩⟩,
          ⟨"fn-active-nohttp", "ACTIVE", none⟩,
          ⟨"fn-deploying", "DEPLOYING", some ⟨"https://fn-deploying"⟩⟩]) :=
  (gcloud_C5
    ⟨⟨"up", "gloo-system"⟩,
      UpstreamType.gcloud ⟨"us-east1", "proj", ⟨"gloo-system", "sec"⟩, []⟩⟩
    [⟨⟨"sec", "gloo-system"⟩, SecretKind.gcloud ⟨[], []⟩⟩]
    [⟨"fn-ready", "READY", some ⟨"https://fn-ready"⟩⟩,
      ⟨"fn-active-nohttp", "ACTIVE", none⟩,
      ⟨"fn-deploying", "DEPLOYING", some ⟨"https://fn-deploying"⟩⟩]
    [⟨"", "fn-ready", "https://fn-ready"⟩]
    (by decide)).1

/-- C4: the discovery write-back at a concrete failing input.  With a valid
secret and the provider returning functions named `"b"` then `"a"` (both
READY, both HTTPS-triggered), the list handed to the mutation callback is
the conversion in provider order with every `logicalName` empty —
`convertGfuncsToFunctionSpec` never populates `LogicalName`, so the
`sort.Slice` by `LogicalName` cannot reorder it to the ascending
permutation by function name. -/
theorem gcloud_C4_eval :
    detectIteration
        ⟨⟨"up", "gloo-system"⟩,
          UpstreamType.gcloud
            ⟨"us-east1", "proj", ⟨"gloo-system", "sec"⟩, []⟩⟩
        [⟨⟨"sec", "gloo-system"⟩, SecretKind.gcloud ⟨[], []⟩⟩]
        [⟨"b", "READY", some ⟨"https://b"⟩⟩,
          ⟨"a", "READY", some ⟨"https://a"⟩⟩] =
      Except.ok [⟨"", "b", "https://b"⟩, ⟨"", "a", "https://a"⟩] ∧
    ([⟨"", "b", "https://b"⟩, ⟨"", "a", "https://a"⟩] ≠
      ([⟨"", "a", "https://a"⟩, ⟨"", "b", "https://b"⟩] :
        List GfuncFunctionSpec)) := by
  decide

/-- An iteration that observes no cancellation is passed through: the
loop absorbs whatever the backoff call returned and continues. -/
theorem detectFunctionsLoop_skip (e : IterEnv) (t : List IterEnv)
    (hc : e.ctxErrAfter = none) (hs : e.sleepErr = none) :
    detectFunctionsLoop (e :: t) = detectFunctionsLoop t := by
  cases hb : e.backoffErr with
  | some ge => simp only [detectFunctionsLoop, hb, hc, hs]
  | none => simp only [detectFunctionsLoop, hb, hs]

/-- A whole cancellation-free prefix is passed through. -/
theorem detectFunctionsLoop_append_clean (pre t : List IterEnv)
    (h : ∀ e ∈ pre, e.ctxErrAfter = none ∧ e.sleepErr = none) :
    detectFunctionsLoop (pre ++ t) = detectFunctionsLoop t := by
  induction pre with
  | nil => rfl
  | cons e rest ih =>
    have he := h e (List.mem_cons_self _ _)
    rw [List.cons_append, detectFunctionsLoop_skip e _ he.1 he.2]
    exact ih (fun x hx => h x (List.mem_cons_of_mem _ hx))

/-- An iteration that observes cancellation returns at once, whatever
iterations would have followed: cancellation seen at the `ctx.Err()`
check after an erroring backoff call, or by the poll-interval sleep,
yields the context's error immediately. -/
theorem detectFunctionsLoop_cancel_step (env : IterEnv)
    (rest : List IterEnv) :
    (∀ ge c, env.backoffErr = some ge → env.ctxErrAfter = some c →
      detectFunctionsLoop (env :: rest) = some (GoErr.ctx c)) ∧
    (∀ c, env.sleepErr = some c →
      env.backoffErr = none ∨ env.ctxErrAfter = none →
      detectFunctionsLoop (env :: rest) = some (GoErr.ctx c)) := by
  constructor
  · intro ge c hbe hce
    simp only [detectFunctionsLoop, hbe, hce]
  · intro c hs hor
    cases hb : env.backoffErr with
    | none => simp only [detectFunctionsLoop, hb, hs]
    | some ge =>
      have hce : env.ctxErrAfter = none := by
        cases hor with
        | inl h => rw [h] at hb; exact nomatch hb
        | inr h => exact h
      simp only [detectFunctionsLoop, hb, hce, hs]

/-- C6: the discovery loop's control flow over any finite prefix of
iteration observations.  (1) Whatever it returns is a
context-cancellation error observed either right after the backoff call
or during the poll-interval sleep; (2) when no cancellation is observed
the loop never returns, absorbing every backoff error; (3) conversely,
after any cancellation-free prefix, an iteration that does observe
cancellation — at the `ctx.Err()` check following an erroring backoff
call, or during the sleep — makes the loop return that context error at
that very iteration, for every possible remainder of the trace. -/
theorem gcloud_C6 (trace : List IterEnv) :
    (∀ e, detectFunctionsLoop trace = some e →
      ∃ c, e = GoErr.ctx c ∧
        ∃ env ∈ trace, env.ctxErrAfter = some c ∨ env.sleepErr = some c) ∧
    ((∀ env ∈ trace, env.ctxErrAfter = none ∧ env.sleepErr = none) →
      detectFunctionsLoop trace = none) ∧
    (∀ pre env rest, trace = pre ++ env :: rest →
      (∀ e ∈ pre, e.ctxErrAfter = none ∧ e.sleepErr = none) →
      (∀ ge c, env.backoffErr = some ge → env.ctxErrAfter = some c →
        detectFunctionsLoop trace = some (GoErr.ctx c)) ∧
      (∀ c, env.sleepErr = some c →
        env.backoffErr = none ∨ env.ctxErrAfter = none →
        detectFunctionsLoop trace = some (GoErr.ctx c))) := by
  have hprompt : ∀ pre env rest, trace = pre ++ env :: rest →
      (∀ e ∈ pre, e.ctxErrAfter = none ∧ e.sleepErr = none) →
      (∀ ge c, env.backoffErr = some ge → env.ctxErrAfter = some c →
        detectFunctionsLoop trace = some (GoErr.ctx c)) ∧
      (∀ c, env.sleepErr = some c →
        env.backoffErr = none ∨ env.ctxErrAfter = none →
        detectFunctionsLoop trace = some (GoErr.ctx c)) := by
    intro pre env rest htr hclean
    subst htr
    rw [detectFunctionsLoop_append_clean pre _ hclean]
    exact detectFunctionsLoop_cancel_step env rest
  refine ⟨?_, ?_, hprompt⟩ <;> clear hprompt
  · induction trace with
    | nil => exact fun e he => nomatch he
    | cons env rest ih =>
      intro e he
      cases hb : env.backoffErr with
      | some ge =>
        cases hc : env.ctxErrAfter with
        | some ce =>
          simp only [detectFunctionsLoop, hb, hc, Option.some.injEq] at he
          exact ⟨ce, he.symm, env, List.mem_cons_self _ _, Or.inl hc⟩
        | none =>
          cases hs : env.sleepErr with
          | some se =>
            simp only [detectFunctionsLoop, hb, hc, hs, Option.some.injEq] at he
            exact ⟨se, he.symm, env, List.mem_cons_self _ _, Or.inr hs⟩
          | none =>
            simp only [detectFunctionsLoop, hb, hc, hs] at he
            obtain ⟨c, hce, env2, hmem, hor⟩ := ih e he
            exact ⟨c, hce, env2, List.mem_cons_of_mem _ hmem, hor⟩
      | none =>
        cases hs : env.sleepErr with
        | some se =>
          simp only [detectFunctionsLoop, hb, hs, Option.some.injEq] at he
          exact ⟨se, he.symm, env, List.mem_cons_self _ _, Or.inr hs⟩
        | none =>
          simp only [detectFunctionsLoop, hb, hs] at he
          obtain ⟨c, hce, env2, hmem, hor⟩ := ih e he
          exact ⟨c, hce, env2, List.mem_cons_of_mem _ hmem, hor⟩
  · intro hall
    rw [← List.append_nil trace]
    exact detectFunctionsLoop_append_clean trace [] hall

theorem gcloud_C6_witness :
    detectFunctionsLoop
        [⟨some (GoErr.provider "list functions failed"), none, none⟩,
          ⟨some (GoErr.updateFailed "conflict"), none, none⟩] = none ∧
    detectFunctionsLoop
        [⟨some (GoErr.provider "boom"), none, none⟩,
          ⟨none, none, some CtxErr.canceled⟩,
          ⟨some (GoErr.provider "never reached"), none, none⟩] =
      some (GoErr.ctx CtxErr.canceled) :=
  ⟨(gcloud_C6
      [⟨some (GoErr.provider "list functions failed"), none, none⟩,
        ⟨some (GoErr.updateFailed "conflict"), none, none⟩]).2.1 (by decide),
    ((gcloud_C6
        [⟨some (GoErr.provider "boom"), none, none⟩,
          ⟨none, none, some CtxErr.canceled⟩,
          ⟨some (GoErr.provider "never reached"), none, none⟩]).2.2
      [⟨some (GoErr.provider "boom"), none, none⟩]
      ⟨none, none, some CtxErr.canceled⟩
      [⟨some (GoErr.provider "never reached"), none, none⟩]
      rfl (by decide)).2 CtxErr.canceled rfl (Or.inl rfl)⟩

/-- `ProcessUpstream`'s outputs and recorded-upstreams update depend only
on the recorded-upstreams map, not on the shared transforms flag. -/
theorem processUpstream_ext (p q : PluginState) (snap : Snapshot)
    (u : Upstream) (out : Cluster)
    (h : p.recordedUpstreams = q.recordedUpstreams) :
    (processUpstream p snap u out).2 = (processUpstream q snap u out).2 ∧
    (processUpstream p snap u out).1.recordedUpstreams =
      (processUpstream q snap u out).1.recordedUpstreams := by
  cases hu : u.upstreamSpec with
  | kube s => simp [processUpstream, hu, h]
  | otherProvider => simp [processUpstream, hu, h]
  | gcloud g =>
    cases hfind : secretsFind snap.secrets g.secretRef with
    | none => simp [processUpstream, hu, hfind, h]
    | some s =>
      cases hkind : s.kind with
      | otherKind => simp [processUpstream, hu, hfind, hkind, h]
      | gcloud gs =>
        by_cases ha : gs.accessKey = [] ∨ utf8Valid gs.accessKey = false <;>
          by_cases hj : gs.jsonKey = [] ∨ utf8Valid gs.jsonKey = false <;>
            simp [processUpstream, hu, hfind, hkind, ha, hj, h,
              setExtensionProtocolOptions]

/-- `ProcessRoute`'s result and recorded-upstreams map depend only on the
recorded-upstreams map. -/
theorem processRoute_ext (p q : PluginState) (r : Route)
    (h : p.recordedUpstreams = q.recordedUpstreams) :
    (processRoute p r).2 = (processRoute q r).2 ∧
    (processRoute p r).1.recordedUpstreams =
      (processRoute q r).1.recordedUpstreams := by
  have hg : gfuncPerFilterFn p r.destination = gfuncPerFilterFn q r.destination := by
    unfold gfuncPerFilterFn
    simp only [h]
  cases hres : gfuncPerFilterFn q r.destination with
  | error e => simp [processRoute, hg, hres, h]
  | ok gCfg => simp [processRoute, hg, hres, h]

/-- One hook call: outputs and map evolution depend only on the map. -/
theorem runHook_ext (snap : Snapshot) (p q : PluginState) (c : HookCall)
    (h : p.recordedUpstreams = q.recordedUpstreams) :
    (runHook snap p c).2 = (runHook snap q c).2 ∧
    (runHook snap p c).1.recordedUpstreams =
      (runHook snap q c).1.recordedUpstreams := by
  cases c with
  | upstreamCall u out =>
    obtain ⟨e1, e2⟩ := processUpstream_ext p q snap u out h
    exact ⟨by simp [runHook, e1], by simpa [runHook] using e2⟩
  | routeCall r =>
    obtain ⟨e1, e2⟩ := processRoute_ext p q r h
    exact ⟨by simp [runHook, e1], by simpa [runHook] using e2⟩
  | filtersCall =>
    have hf : httpFilters p = httpFilters q := by
      unfold httpFilters
      rw [h]
    exact ⟨by simp [runHook, hf], by simpa [runHook] using h⟩

/-- A hook-call sequence: the emitted results depend only on the
recorded-upstreams map of the starting state. -/
theorem runHooks_ext (snap : Snapshot) (calls : List HookCall) :
    ∀ p q : PluginState, p.recordedUpstreams = q.recordedUpstreams →
      (runHooks snap p calls).2 = (runHooks snap q calls).2 ∧
      (runHooks snap p calls).1.recordedUpstreams =
        (runHooks snap q calls).1.recordedUpstreams := by
  induction calls with
  | nil => intro p q h; exact ⟨rfl, h⟩
  | cons c rest ih =>
    intro p q h
    obtain ⟨e1, e2⟩ := runHook_ext snap p q c h
    obtain ⟨f1, f2⟩ := ih (runHook snap p c).1 (runHook snap q c).1 e2
    exact ⟨by simp [runHooks, e1, f1], by simpa [runHooks] using f2⟩

/-- C9: the plugin's hooks are deterministic per pass: after `Init`, any
same sequence of `ProcessUpstream`, `ProcessRoute` and `HttpFilters`
calls over the same snapshot yields identical cluster outputs, route
patches and staged filters, independent of whatever state either plugin
instance carried before `Init` (the embedding is a pure function of the
snapshot and the pass-local state, so no wall-clock or re-fetched input
can influence it). -/
theorem gcloud_C9 (snap : Snapshot) (calls : List HookCall)
    (p q : PluginState) :
    (runPass snap p calls).2 = (runPass snap q calls).2 :=
  (runHooks_ext snap calls (pluginInit p) (pluginInit q) rfl).1
